import Mathlib

/-!
Verification development for the desktop AI application
(`src/models/model_base.py`, `src/models/image_classifier.py`,
`src/models/text_to_video.py`).

The two adapter classes are embedded shallowly: each Python object is a
state record, each method is a function from the state (plus the outcomes
of the external third-party calls it makes) to a result, paired with the
state the method leaves behind.  Python exceptions are modelled with
`Except`; Python float arithmetic on the animation parameters is modelled
with exact rationals, and the transcendental brightness factor with `ℝ`.
External library behaviour (the Hugging Face pipelines, `PIL.Image.resize`,
`imageio.mimsave`, `Image.save`, `Image.open`) is passed in as function or
outcome parameters, since those libraries are not part of this repository.
-/

/-- Pixel raster of a PIL image: dimensions plus a channel-intensity map.
Intensities are modelled in `ℝ` (8-bit quantization abstracted); only the
pixels with `x < width` and `y < height` are observable. -/
structure Img where
  width : Nat
  height : Nat
  px : Nat → Nat → ℝ

/-- PIL `Image.crop((left, upper, right, lower))`: always returns an image of
size `(right - left, lower - upper)`; positions outside the source image are
filled with zero (black padding). -/
def Img.crop (img : Img) (left upper right lower : ℤ) : Img where
  width := (right - left).toNat
  height := (lower - upper).toNat
  px := fun x y =>
    let sx : ℤ := (x : ℤ) + left
    let sy : ℤ := (y : ℤ) + upper
    if 0 ≤ sx ∧ sx < (img.width : ℤ) ∧ 0 ≤ sy ∧ sy < (img.height : ℤ) then
      img.px sx.toNat sy.toNat
    else 0

/-- PIL `ImageEnhance.Brightness(img).enhance(factor)`: multiplies every
channel by `factor`, clamped to the 8-bit channel range `[0, 255]`. -/
noncomputable def Img.enhanceBrightness (img : Img) (factor : ℝ) : Img where
  width := img.width
  height := img.height
  px := fun x y => min 255 (max 0 (factor * img.px x y))

/-- Well-formedness of a raster: every channel value lies in the 8-bit
range `[0, 255]`. -/
def Img.wf (img : Img) : Prop := ∀ x y, 0 ≤ img.px x y ∧ img.px x y ≤ 255

/-- Observational equality of two images: same dimensions and the same
channel values at every in-bounds position. -/
def Img.pixelEq (a b : Img) : Prop :=
  a.width = b.width ∧ a.height = b.height ∧
  ∀ x y, x < a.width → y < a.height → a.px x y = b.px x y

/-- The Python exceptions raised or propagated by the two adapters, carrying
their message; `ZeroDivisionError` is included because
`_create_animation_frames` can divide by zero. -/
inductive PyError where
  | exception (msg : String)
  | valueError (msg : String)
  | typeError (msg : String)
  | zeroDivisionError (msg : String)
  deriving DecidableEq

/-- Python `str(e)` on an exception: its message. -/
def PyError.str : PyError → String
  | .exception m => m
  | .valueError m => m
  | .typeError m => m
  | .zeroDivisionError m => m

/-- Boolean success test for an `Except` value. -/
def exceptIsOk : Except ε α → Bool
  | .ok _ => true
  | .error _ => false

/-- One raw ranked prediction produced by the image-classification
pipeline: a class label with a confidence score in `[0, 1]`.  Scores are
modelled as exact rationals. -/
structure RawPred where
  label : String
  score : ℚ
  deriving DecidableEq

/-- One reformatted prediction record returned by
`ImageClassifierModel.predict`: 1-based rank, label, and the confidence
rendered as a percentage string. -/
structure RankedPred where
  rank : Nat
  label : String
  confidence : String
  deriving DecidableEq

/-- Round a rational to the nearest integer, ties to even — the rounding
used by Python format specifiers such as `:.2f` and `:.1f`. -/
def roundHalfEven (q : ℚ) : ℤ :=
  let f : ℤ := Int.floor q
  let frac : ℚ := q - f
  if frac < 1 / 2 then f
  else if 1 / 2 < frac then f + 1
  else if f % 2 = 0 then f else f + 1

/-- Python fixed-point formatting with spec .2f for a nonnegative rational: exactly two digits
after the decimal point. -/
def formatFixed2 (q : ℚ) : String :=
  let n : ℕ := (roundHalfEven (q * 100)).toNat
  toString (n / 100) ++ "." ++ (if n % 100 < 10 then "0" else "") ++ toString (n % 100)

/-- Python fixed-point formatting with spec .1f for a nonnegative rational: exactly one digit after
the decimal point. -/
def formatFixed1 (q : ℚ) : String :=
  let n : ℕ := (roundHalfEven (q * 10)).toNat
  toString (n / 10) ++ "." ++ toString (n % 10)

/-- The confidence formatting in `ImageClassifierModel.predict`: the score
times 100, rendered with format spec .2f and a percent sign appended. -/
def formatPct (score : ℚ) : String := formatFixed2 (score * 100) ++ "%"

/-- Python `str.strip()`: drop whitespace from both ends of the string. -/
def pyStrip (s : String) : String :=
  String.mk (((s.data.dropWhile Char.isWhitespace).reverse.dropWhile Char.isWhitespace).reverse)

namespace ImageClassifierModel

/-- The loaded image-classification pipeline (`transformers.pipeline`): maps
an image to its ranked prediction list, or raises. -/
def Pipeline : Type := Img → Except PyError (List RawPred)

/-- The attribute state of an `ImageClassifierModel` object: the
`AIModelBase` fields plus the private `_top_k` configuration. -/
structure State where
  model_name : String
  category : String
  description : String
  loaded : Bool
  model : Option Pipeline
  top_k : Nat

/-- The state built by `ImageClassifierModel.__init__`. -/
def init : State where
  model_name := "Vision Transformer (ViT)"
  category := "Computer Vision - Image Classification"
  description := "Vision Transformer (ViT) is a neural network architecture that applies transformer mechanisms to image classification. It divides images into patches and processes them as sequences, achieving state-of-the-art performance on image recognition tasks."
  loaded := false
  model := none
  top_k := 3

/-- Method `ImageClassifierModel.load_model`, given the outcome of the external
`transformers.pipeline(...)` call: on success stores the pipeline and sets
`_loaded = True`, returning `True`; on any failure sets `_loaded = False`
and returns `False` — the `try`/`except` never lets the exception escape. -/
def load_model (st : State) (outcome : Except PyError Pipeline) : State × Bool :=
  match outcome with
  | .ok p => ({ st with model := some p, loaded := true }, true)
  | .error _ => ({ st with loaded := false }, false)

/-- The argument passed to `ImageClassifierModel.predict`: a file path
string, an in-memory PIL image, or anything else. -/
inductive Input where
  | path (s : String)
  | image (img : Img)
  | invalid

/-- The result-formatting loop of `ImageClassifierModel.predict`:
enumerate the first `top_k` results and build records with rank `i + 1`,
the pipeline label, and the confidence percentage string. -/
def formatResults (results : List RawPred) (topK : Nat) : List RankedPred :=
  (results.take topK).enum.map fun pr =>
    { rank := pr.1 + 1, label := pr.2.label, confidence := formatPct pr.2.score }

/-- The body of the `try` block in `ImageClassifierModel.predict`:
resolve the input to an image (raising `ValueError` for an unsupported
input kind), call the pipeline, and format the results.  `openFn` is the
external `PIL.Image.open`. -/
def tryBody (openFn : String → Except PyError Img) (st : State) (input : Input) :
    Except PyError (List RankedPred) :=
  match (match input with
         | .path s => openFn s
         | .image img => .ok img
         | .invalid => .error (.valueError "Input must be a file path (string) or PIL Image")) with
  | .error e => .error e
  | .ok image =>
    match st.model with
    | none => .error (.typeError "'NoneType' object is not callable")
    | some pipe =>
      match pipe image with
      | .error e => .error e
      | .ok results => .ok (formatResults results st.top_k)

/-- Method `ImageClassifierModel.predict`: raises the not-loaded `Exception`
before the `try` block when `_loaded` is false; any exception raised inside
the `try` block is re-raised as `Exception(f"Prediction failed: {e}")`.
The method never assigns to `self`, so the state component of the result is
the input state at every exit point. -/
def predict (openFn : String → Except PyError Img) (st : State) (input : Input) :
    State × Except PyError (List RankedPred) :=
  if st.loaded = false then
    (st, .error (.exception "Model not loaded. Call load_model() first."))
  else
    match tryBody openFn st input with
    | .ok r => (st, .ok r)
    | .error e => (st, .error (.exception ("Prediction failed: " ++ e.str)))

end ImageClassifierModel

namespace TextToVideoModel

/-- The loaded text-to-image pipeline (`DiffusionPipeline`): maps
`(prompt, num_inference_steps, height, width, guidance_scale)` to the
generated base image, or raises. -/
def Pipeline : Type := String → Nat → Nat → Nat → ℚ → Except PyError Img

/-- The attribute state of a `TextToVideoModel` object: the `AIModelBase`
fields plus the private configuration attributes. -/
structure State where
  model_name : String
  category : String
  description : String
  loaded : Bool
  model : Option Pipeline
  num_inference_steps : Nat
  num_frames : Nat
  fps : Nat

/-- The state built by `TextToVideoModel.__init__`. -/
def init : State where
  model_name := "Text-to-Video (Lightweight)"
  category := "Video Generation"
  description := "Generates 2-3 second video clips from text. Uses lightweight text-to-image generation with smooth animation effects. Optimized for CPU."
  loaded := false
  model := none
  num_inference_steps := 20
  num_frames := 24
  fps := 8

/-- Outcome of the external pipeline initialization in
`TextToVideoModel.load_model`: `DiffusionPipeline.from_pretrained` followed
by `.to(device)`.  A failure of the second step happens after `self._model`
was already assigned. -/
inductive LoadOutcome where
  | ok (pipe : Pipeline)
  | failPretrained (msg : String)
  | failToDevice (pipe : Pipeline) (msg : String)

/-- Whether the pipeline initialization completed without raising. -/
def LoadOutcome.success : LoadOutcome → Bool
  | .ok _ => true
  | .failPretrained _ => false
  | .failToDevice _ _ => false

/-- Method `TextToVideoModel.load_model`: on success sets `_loaded = True` and
returns `True`; on any failure inside the `try` block sets
`_loaded = False` and returns `False` — the exception never escapes. -/
def load_model (st : State) (outcome : LoadOutcome) : State × Bool :=
  match outcome with
  | .ok p => ({ st with model := some p, loaded := true }, true)
  | .failPretrained _ => ({ st with loaded := false }, false)
  | .failToDevice p _ => ({ st with model := some p, loaded := false }, false)

/-- Python `progress = i / (self._num_frames - 1)` in `_create_animation_frames`
(exact-rational model of the Python float division; the subtraction is on
Python ints, hence the `ℤ` cast). -/
def progress (numFrames i : Nat) : ℚ := (i : ℚ) / (((numFrames : ℤ) - 1 : ℤ) : ℚ)

/-- Python `ease = progress * progress * (3.0 - 2.0 * progress)` — the smoothstep
easing in `_create_animation_frames`. -/
def ease (p : ℚ) : ℚ := p * p * (3 - 2 * p)

/-- Python `scale = 1.0 + (ease * 0.2)` in `_create_animation_frames`. -/
def scale (p : ℚ) : ℚ := 1 + ease p * 0.2

/-- Python `int(...)` applied to a nonstandard-width float: truncation
toward zero. -/
def truncInt (q : ℚ) : ℤ := if q < 0 then -(Int.floor (-q)) else Int.floor q

/-- Python `int(width * scale)` and `int(height * scale)` in
`_create_animation_frames`. -/
def newSize (n : Nat) (s : ℚ) : Nat := (truncInt ((n : ℚ) * s)).toNat

/-- Python `brightness_factor = 1.0 + (np.sin(progress * np.pi) * 0.05)` in
`_create_animation_frames`. -/
noncomputable def brightnessFactor (p : ℚ) : ℝ :=
  1 + Real.sin ((p : ℝ) * Real.pi) * 0.05

/-- One iteration of the loop in `_create_animation_frames`: compute
progress, ease and scale, resize by the scale (`resizeFn` is the external
`PIL.Image.resize` with `LANCZOS`), center-crop back to the original size,
and apply the brightness enhancement. -/
noncomputable def makeFrame (resizeFn : Img → Nat → Nat → Img) (baseImage : Img)
    (numFrames i : Nat) : Img :=
  let width := baseImage.width
  let height := baseImage.height
  let p := progress numFrames i
  let s := scale p
  let newWidth := newSize width s
  let newHeight := newSize height s
  let zoomed := resizeFn baseImage newWidth newHeight
  let panX := truncInt (((newWidth : ℚ) - (width : ℚ)) * 0.5)
  let panY := truncInt (((newHeight : ℚ) - (height : ℚ)) * 0.5)
  let frame := zoomed.crop panX panY (panX + (width : ℤ)) (panY + (height : ℤ))
  frame.enhanceBrightness (brightnessFactor p)

/-- Method `TextToVideoModel._create_animation_frames`.  The Python loop
`for i in range(num_frames)` computes `i / (num_frames - 1)` on its first
iteration, so `num_frames == 1` raises `ZeroDivisionError` (modelled as
`none`); `num_frames == 0` runs the loop zero times and returns `[]`. -/
noncomputable def createAnimationFrames (resizeFn : Img → Nat → Nat → Img)
    (baseImage : Img) (numFrames : Nat) : Option (List Img) :=
  if numFrames = 1 then none
  else some ((List.range numFrames).map (makeFrame resizeFn baseImage numFrames))

/-- The record returned by a successful `TextToVideoModel.predict`. -/
structure VideoResult where
  status : String
  message : String
  file : String
  preview : String
  frames : Nat
  fps : Nat
  duration : String
  format : String
  resolution : String
  deriving DecidableEq

/-- The pipeline call in `TextToVideoModel.predict`:
`self._model(prompt=..., num_inference_steps=self._num_inference_steps,
height=512, width=512, guidance_scale=7.5).images[0]`. -/
def pipelineRun (st : State) (prompt : String) : Except PyError Img :=
  match st.model with
  | none => .error (.typeError "'NoneType' object is not callable")
  | some pipe => pipe prompt st.num_inference_steps 512 512 7.5

/-- The argument passed to `TextToVideoModel.predict`: a string or
anything else. -/
inductive Input where
  | str (s : String)
  | nonStr

/-- The inputs rejected by the validation in `TextToVideoModel.predict`:
not a string, or empty after `strip()`. -/
def invalidInput : Input → Prop
  | .nonStr => True
  | .str s => pyStrip s = ""

/-- The body of the `try` block in `TextToVideoModel.predict`: run the
text-to-image pipeline, build the animation frames, export the video
(`imageio.mimsave`, external — outcome `mimsaveResult`), save the preview
still (`frames[0].save`, external — outcome `saveResult`), and assemble the
result dictionary with `duration = len(frames) / self._fps` rendered with
format spec .1f followed by the word seconds. -/
noncomputable def tryBody (resizeFn : Img → Nat → Nat → Img)
    (mimsaveResult saveResult : Except PyError Unit) (st : State) (prompt : String) :
    Except PyError VideoResult :=
  match pipelineRun st prompt with
  | .error e => .error e
  | .ok baseImage =>
    match createAnimationFrames resizeFn baseImage st.num_frames with
    | none => .error (.zeroDivisionError "division by zero")
    | some frames =>
      match mimsaveResult with
      | .error e => .error e
      | .ok _ =>
        match saveResult with
        | .error e => .error e
        | .ok _ =>
          if st.fps = 0 then .error (.zeroDivisionError "division by zero")
          else
            .ok { status := "success"
                  message := "Video generated successfully!"
                  file := "generated_video.mp4"
                  preview := "generated_video_preview.png"
                  frames := frames.length
                  fps := st.fps
                  duration := formatFixed1 ((frames.length : ℚ) / (st.fps : ℚ)) ++ " seconds"
                  format := "MP4 video file"
                  resolution := "512x512" }

/-- Method `TextToVideoModel.predict`: raises the not-loaded `Exception` before
the `try` block when `_loaded` is false, then raises `ValueError` for a
non-string or blank prompt; any exception raised inside the `try` block is
re-raised as `Exception(f"Video generation failed: {e}")`.  The method
never assigns to `self`, so the state component of the result is the input
state at every exit point. -/
noncomputable def predict (resizeFn : Img → Nat → Nat → Img)
    (mimsaveResult saveResult : Except PyError Unit) (st : State) (input : Input) :
    State × Except PyError VideoResult :=
  if st.loaded = false then
    (st, .error (.exception "Model not loaded. Call load_model() first."))
  else
    match input with
    | .nonStr => (st, .error (.valueError "Input must be a non-empty text prompt"))
    | .str s =>
      if pyStrip s = "" then
        (st, .error (.valueError "Input must be a non-empty text prompt"))
      else
        match tryBody resizeFn mimsaveResult saveResult st s with
        | .ok r => (st, .ok r)
        | .error e => (st, .error (.exception ("Video generation failed: " ++ e.str)))

end TextToVideoModel

/-! ### Concrete fixtures used by the closed witness theorems -/

/-- A concrete 1-by-1 test raster with every channel at intensity 100. -/
noncomputable def testImg : Img := ⟨1, 1, fun _ _ => 100⟩

/-- A resize stand-in that returns its input unchanged; it satisfies the
identity-at-same-size property of PIL `resize`, which short-circuits when
the requested size equals the current size. -/
def idResize : Img → Nat → Nat → Img := fun img _ _ => img

/-- A stand-in for `PIL.Image.open` (never consulted by the witnesses). -/
def testOpenFn : String → Except PyError Img := fun _ => .error (.exception "file not found")

/-- Five fixed raw predictions, mirroring the 5-category example of the
specification. -/
def testRawPreds : List RawPred :=
  [⟨"tabby cat", 8734 / 10000⟩, ⟨"tiger cat", 6 / 100⟩, ⟨"red fox", 4 / 100⟩,
   ⟨"lynx", 2 / 100⟩, ⟨"goldfish", 1 / 100⟩]

/-- A loaded classifier state whose pipeline returns `testRawPreds`. -/
def testClassifierLoaded : ImageClassifierModel.State :=
  { ImageClassifierModel.init with loaded := true, model := some fun _ => .ok testRawPreds }

/-- A text-to-image pipeline stand-in returning the test raster. -/
noncomputable def testTtvPipeline : TextToVideoModel.Pipeline := fun _ _ _ _ _ => .ok testImg

/-- A loaded text-to-video state with the default configuration
(24 frames, 8 fps, 20 inference steps). -/
noncomputable def testTtvLoaded : TextToVideoModel.State :=
  { TextToVideoModel.init with loaded := true, model := some testTtvPipeline }

/-- The loaded text-to-video state reconfigured to 25 frames (as via
`set_num_frames(25)`). -/
noncomputable def testTtvLoaded25 : TextToVideoModel.State :=
  { testTtvLoaded with num_frames := 25 }

/-- The video result produced by a successful default-configuration run. -/
def videoResult24 : TextToVideoModel.VideoResult :=
  { status := "success", message := "Video generated successfully!",
    file := "generated_video.mp4", preview := "generated_video_preview.png",
    frames := 24, fps := 8, duration := "3.0 seconds",
    format := "MP4 video file", resolution := "512x512" }

/-- The video result produced by a successful 25-frame run. -/
def videoResult25 : TextToVideoModel.VideoResult :=
  { status := "success", message := "Video generated successfully!",
    file := "generated_video.mp4", preview := "generated_video_preview.png",
    frames := 25, fps := 8, duration := "3.1 seconds",
    format := "MP4 video file", resolution := "512x512" }

/-! ### Frame Synthesizer: basic facts -/

namespace TextToVideoModel

theorem progress_zero (N : Nat) : progress N 0 = 0 := by
  simp [progress]

theorem progress_last {N : Nat} (h : 2 ≤ N) : progress N (N - 1) = 1 := by
  unfold progress
  have h1 : (1 : ℕ) ≤ N := by omega
  have num : ((N - 1 : ℕ) : ℚ) = (N : ℚ) - 1 := by
    rw [Nat.cast_sub h1]; norm_num
  have den : ((((N : ℤ) - 1 : ℤ)) : ℚ) = (N : ℚ) - 1 := by push_cast; ring
  have hpos : (0 : ℚ) < (N : ℚ) - 1 := by
    have : (2 : ℚ) ≤ (N : ℚ) := by exact_mod_cast h
    linarith
  rw [num, den, div_self (ne_of_gt hpos)]

theorem ease_zero : ease 0 = 0 := by norm_num [ease]

theorem ease_one : ease 1 = 1 := by norm_num [ease]

theorem scale_zero : scale 0 = 1 := by norm_num [scale, ease]

theorem scale_one : scale 1 = 6 / 5 := by norm_num [scale, ease]

theorem truncInt_zero : truncInt 0 = 0 := by norm_num [truncInt]

theorem newSize_one (n : Nat) : newSize n 1 = n := by
  unfold newSize truncInt
  rw [mul_one]
  have h : ¬((n : ℚ) < 0) := not_lt.mpr (Nat.cast_nonneg n)
  simp [h, Int.floor_natCast]

theorem brightnessFactor_zero : brightnessFactor 0 = 1 := by
  simp [brightnessFactor]

theorem createAnimationFrames_of_ne_one (f : Img → Nat → Nat → Img) (img : Img)
    {N : Nat} (h : N ≠ 1) :
    createAnimationFrames f img N = some ((List.range N).map (makeFrame f img N)) := by
  simp [createAnimationFrames, h]

theorem createAnimationFrames_length {f : Img → Nat → Nat → Img} {img : Img}
    {N : Nat} {fs : List Img} (h : createAnimationFrames f img N = some fs) :
    fs.length = N := by
  by_cases h1 : N = 1
  · subst h1; simp [createAnimationFrames] at h
  · rw [createAnimationFrames_of_ne_one f img h1] at h
    injection h with h
    simp [← h]

theorem makeFrame_width (f : Img → Nat → Nat → Img) (img : Img) (N i : Nat) :
    (makeFrame f img N i).width = img.width := by
  show ((_ + (img.width : ℤ)) - _).toNat = img.width
  omega

theorem makeFrame_height (f : Img → Nat → Nat → Img) (img : Img) (N i : Nat) :
    (makeFrame f img N i).height = img.height := by
  show ((_ + (img.height : ℤ)) - _).toNat = img.height
  omega

theorem makeFrame_zero_pixelEq (f : Img → Nat → Nat → Img) (img : Img) (N : Nat)
    (hres : f img img.width img.height = img) (hwf : img.wf) :
    (makeFrame f img N 0).pixelEq img := by
  unfold makeFrame
  dsimp only
  rw [progress_zero, scale_zero, newSize_one, newSize_one, hres, brightnessFactor_zero]
  have hpan : ((img.width : ℚ) - (img.width : ℚ)) * 0.5 = 0 := by ring
  have hpan2 : ((img.height : ℚ) - (img.height : ℚ)) * 0.5 = 0 := by ring
  rw [hpan, hpan2, truncInt_zero]
  refine ⟨by simp [Img.enhanceBrightness, Img.crop], by simp [Img.enhanceBrightness, Img.crop], ?_⟩
  intro x y hx hy
  have hx' : x < img.width := by
    simpa [Img.enhanceBrightness, Img.crop] using hx
  have hy' : y < img.height := by
    simpa [Img.enhanceBrightness, Img.crop] using hy
  show min 255 (max 0 (1 * (Img.crop img 0 0 _ _).px x y)) = img.px x y
  have hcrop : (Img.crop img 0 0 (0 + (img.width : ℤ)) (0 + (img.height : ℤ))).px x y = img.px x y := by
    simp [Img.crop, hx', hy']
  rw [hcrop, one_mul]
  rw [max_eq_right (hwf x y).1, min_eq_right (hwf x y).2]

end TextToVideoModel

/-! ### Predict leaves the state untouched (both adapters) -/

theorem ImageClassifierModel.classifier_predict_fst (openFn : String → Except PyError Img)
    (st : ImageClassifierModel.State) (input : ImageClassifierModel.Input) :
    (ImageClassifierModel.predict openFn st input).1 = st := by
  unfold ImageClassifierModel.predict
  split
  · rfl
  · cases ImageClassifierModel.tryBody openFn st input <;> rfl

theorem TextToVideoModel.ttv_predict_fst (resizeFn : Img → Nat → Nat → Img)
    (mimsaveResult saveResult : Except PyError Unit)
    (st : TextToVideoModel.State) (input : TextToVideoModel.Input) :
    (TextToVideoModel.predict resizeFn mimsaveResult saveResult st input).1 = st := by
  unfold TextToVideoModel.predict
  split
  · rfl
  · cases input with
    | nonStr => rfl
    | str s =>
      dsimp only
      split
      · rfl
      · cases TextToVideoModel.tryBody resizeFn mimsaveResult saveResult st s <;> rfl

/-! ### Claim theorems -/

/-- C1 (amended): for every source image and frame count `N ≥ 2`, frame 0
has `ease = 0` and `scale = 1`, and (assuming the PIL property that a
resize to the image's own size is the identity, and 8-bit-bounded pixels)
the center-crop returns the image unchanged at frame 0; but frame `N - 1`
has `ease = 1` and `scale = 1.2`, so the last frame is a 1.2x zoom, not
the identity the original claim states. -/
theorem C1_endpoint_frames (resizeFn : Img → Nat → Nat → Img) (img : Img) (N : Nat)
    (hN : 2 ≤ N) (hres : resizeFn img img.width img.height = img) (hwf : img.wf) :
    TextToVideoModel.ease (TextToVideoModel.progress N 0) = 0 ∧
    TextToVideoModel.scale (TextToVideoModel.progress N 0) = 1 ∧
    (TextToVideoModel.makeFrame resizeFn img N 0).pixelEq img ∧
    TextToVideoModel.ease (TextToVideoModel.progress N (N - 1)) = 1 ∧
    TextToVideoModel.scale (TextToVideoModel.progress N (N - 1)) = 6 / 5 := by
  refine ⟨?_, ?_, ?_, ?_, ?_⟩
  · rw [TextToVideoModel.progress_zero]; exact TextToVideoModel.ease_zero
  · rw [TextToVideoModel.progress_zero]; exact TextToVideoModel.scale_zero
  · exact TextToVideoModel.makeFrame_zero_pixelEq resizeFn img N hres hwf
  · rw [TextToVideoModel.progress_last hN]; exact TextToVideoModel.ease_one
  · rw [TextToVideoModel.progress_last hN]; exact TextToVideoModel.scale_one

/-- C1 (counterexample): in the spec's own `N = 4` example, the last frame
(index 3) has `ease = 1` and `scale = 1.2`, refuting the claim that
`ease == 0` and `scale == 1.0` at frame `N - 1`. -/
theorem C1_counterexample :
    ¬ (TextToVideoModel.ease (TextToVideoModel.progress 4 3) = 0 ∧
       TextToVideoModel.scale (TextToVideoModel.progress 4 3) = 1) := by
  have h : TextToVideoModel.progress 4 3 = 1 := by
    norm_num [TextToVideoModel.progress]
  rw [h, TextToVideoModel.ease_one, TextToVideoModel.scale_one]
  norm_num

/-- C1 witness: the amended claim at the concrete 1-by-1 test image with
`N = 2`. -/
theorem C1_witness :
    TextToVideoModel.ease (TextToVideoModel.progress 2 0) = 0 ∧
    TextToVideoModel.scale (TextToVideoModel.progress 2 0) = 1 ∧
    (TextToVideoModel.makeFrame idResize testImg 2 0).pixelEq testImg ∧
    TextToVideoModel.ease (TextToVideoModel.progress 2 (2 - 1)) = 1 ∧
    TextToVideoModel.scale (TextToVideoModel.progress 2 (2 - 1)) = 6 / 5 :=
  C1_endpoint_frames idResize testImg 2 (by norm_num) rfl
    (fun x y => by constructor <;> norm_num [testImg])

/-- C2: the claim's required behaviour — `N == 1` must not raise and must
return one unmodified frame — is violated by the code: the loop body
computes `progress = i / (num_frames - 1)` with a zero divisor, raising
`ZeroDivisionError` (modelled as `none`) for every resize function and
every source image. -/
theorem C2_single_frame_divzero (resizeFn : Img → Nat → Nat → Img) (img : Img) :
    TextToVideoModel.createAnimationFrames resizeFn img 1 = none := rfl

/-- C3: for every source image and every `N ≥ 2`, the Frame Synthesizer
returns (no exception) exactly `N` frames, each of the source image's
pixel dimensions — the center-crop box is always `width` by `height`. -/
theorem C3_frame_count_dims (resizeFn : Img → Nat → Nat → Img) (img : Img) (N : Nat)
    (hN : 2 ≤ N) :
    ∃ fs, TextToVideoModel.createAnimationFrames resizeFn img N = some fs ∧
      fs.length = N ∧ ∀ fr ∈ fs, fr.width = img.width ∧ fr.height = img.height := by
  refine ⟨(List.range N).map (TextToVideoModel.makeFrame resizeFn img N),
    TextToVideoModel.createAnimationFrames_of_ne_one resizeFn img (by omega), by simp, ?_⟩
  intro fr hfr
  obtain ⟨i, _, rfl⟩ := List.mem_map.mp hfr
  exact ⟨TextToVideoModel.makeFrame_width resizeFn img N i,
         TextToVideoModel.makeFrame_height resizeFn img N i⟩

/-- C3 witness: the concrete 1-by-1 test image with `N = 4`. -/
theorem C3_witness :
    ∃ fs, TextToVideoModel.createAnimationFrames idResize testImg 4 = some fs ∧
      fs.length = 4 ∧ ∀ fr ∈ fs, fr.width = testImg.width ∧ fr.height = testImg.height :=
  C3_frame_count_dims idResize testImg 4 (by norm_num)

/-- C4: for both adapters, `load_model` is a total function of the
pipeline-initialization outcome (no exception escapes the `try` block):
it returns `true` and sets the loaded-flag exactly when the underlying
initialization succeeded, and returns `false` and clears the loaded-flag
on any failure. -/
theorem C4_load_boundary (stC : ImageClassifierModel.State)
    (oc : Except PyError ImageClassifierModel.Pipeline)
    (stT : TextToVideoModel.State) (ot : TextToVideoModel.LoadOutcome) :
    ((ImageClassifierModel.load_model stC oc).2 = exceptIsOk oc ∧
     (ImageClassifierModel.load_model stC oc).1.loaded = exceptIsOk oc) ∧
    ((TextToVideoModel.load_model stT ot).2 = ot.success ∧
     (TextToVideoModel.load_model stT ot).1.loaded = ot.success) := by
  constructor
  · cases oc <;> simp [ImageClassifierModel.load_model, exceptIsOk]
  · cases ot <;> simp [TextToVideoModel.load_model, TextToVideoModel.LoadOutcome.success]

/-- C5: for both adapters, calling `predict` while the loaded-flag is
false returns the not-loaded error — for every input and every pipeline
(the quantification over the state's pipeline and the external functions
shows the underlying pipeline is never consulted). -/
theorem C5_not_loaded (openFn : String → Except PyError Img)
    (stC : ImageClassifierModel.State) (cin : ImageClassifierModel.Input)
    (resizeFn : Img → Nat → Nat → Img) (mim sav : Except PyError Unit)
    (stT : TextToVideoModel.State) (tin : TextToVideoModel.Input)
    (hC : stC.loaded = false) (hT : stT.loaded = false) :
    (ImageClassifierModel.predict openFn stC cin).2 =
      .error (.exception "Model not loaded. Call load_model() first.") ∧
    (TextToVideoModel.predict resizeFn mim sav stT tin).2 =
      .error (.exception "Model not loaded. Call load_model() first.") := by
  constructor
  · simp [ImageClassifierModel.predict, hC]
  · simp [TextToVideoModel.predict, hT]

/-- C5 witness: both freshly constructed (never loaded) adapters reject a
`predict` call with the not-loaded error. -/
theorem C5_witness :
    (ImageClassifierModel.predict testOpenFn ImageClassifierModel.init .invalid).2 =
      .error (.exception "Model not loaded. Call load_model() first.") ∧
    (TextToVideoModel.predict idResize (.ok ()) (.ok ()) TextToVideoModel.init .nonStr).2 =
      .error (.exception "Model not loaded. Call load_model() first.") :=
  C5_not_loaded testOpenFn ImageClassifierModel.init .invalid idResize (.ok ()) (.ok ())
    TextToVideoModel.init .nonStr rfl rfl

/-- C10: neither adapter's `predict` mutates the adapter state: whatever
the input, the external outcomes, and whether the call returns a result
or an error, the state component of the result (model name, category,
description, loaded-flag, pipeline handle and all configuration fields)
is exactly the input state. -/
theorem C10_predict_no_mutation (openFn : String → Except PyError Img)
    (stC : ImageClassifierModel.State) (cin : ImageClassifierModel.Input)
    (resizeFn : Img → Nat → Nat → Img) (mim sav : Except PyError Unit)
    (stT : TextToVideoModel.State) (tin : TextToVideoModel.Input) :
    (ImageClassifierModel.predict openFn stC cin).1 = stC ∧
    (TextToVideoModel.predict resizeFn mim sav stT tin).1 = stT :=
  ⟨ImageClassifierModel.classifier_predict_fst openFn stC cin,
   TextToVideoModel.ttv_predict_fst resizeFn mim sav stT tin⟩

/-! ### Formatting evaluations -/

theorem formatPct_8734 : formatPct (8734 / 10000) = "87.34%" := by
  have h : roundHalfEven ((8734 / 10000 : ℚ) * 100 * 100) = 8734 := by
    unfold roundHalfEven; norm_num
  simp only [formatPct, formatFixed2, h]
  decide

theorem formatPct_4pc : formatPct (4 / 100) = "4.00%" := by
  have h : roundHalfEven ((4 / 100 : ℚ) * 100 * 100) = 400 := by
    unfold roundHalfEven; norm_num
  simp only [formatPct, formatFixed2, h]
  decide

theorem formatFixed1_24_8 : formatFixed1 ((24 : ℚ) / 8) = "3.0" := by
  have h : roundHalfEven ((24 / 8 : ℚ) * 10) = 30 := by
    unfold roundHalfEven; norm_num
  simp only [formatFixed1, h]
  decide

theorem formatFixed1_25_8 : formatFixed1 ((25 : ℚ) / 8) = "3.1" := by
  have h : roundHalfEven ((25 / 8 : ℚ) * 10) = 31 := by
    unfold roundHalfEven; norm_num
  simp only [formatFixed1, h]
  decide

/-! ### Classifier predict: success path -/

namespace ImageClassifierModel

theorem formatResults_length (results : List RawPred) (k : Nat) :
    (formatResults results k).length = min k results.length := by
  simp [formatResults]

theorem formatResults_getElem (results : List RawPred) (k j : Nat) (r : RawPred)
    (hj : j < k) (hr : results[j]? = some r) :
    (formatResults results k)[j]? =
      some { rank := j + 1, label := r.label, confidence := formatPct r.score } := by
  unfold formatResults
  rw [List.getElem?_map, List.getElem?_enum, List.getElem?_take_of_lt hj, hr]
  rfl

theorem classifier_predict_success (openFn : String → Except PyError Img) (st : State)
    (pipe : Pipeline) (img : Img) (results : List RawPred) (input : Input)
    (hl : st.loaded = true) (hm : st.model = some pipe)
    (hin : input = .image img ∨ ∃ s, input = .path s ∧ openFn s = .ok img)
    (hres : pipe img = .ok results) :
    (predict openFn st input).2 = .ok (formatResults results st.top_k) := by
  have hbody : tryBody openFn st input = .ok (formatResults results st.top_k) := by
    unfold tryBody
    rcases hin with rfl | ⟨s, rfl, hs⟩
    · simp [hm, hres]
    · simp [hs, hm, hres]
  simp [predict, hl, hbody]

end ImageClassifierModel

/-- C6: for every loaded classifier whose input resolves to an image on
which the pipeline returns `results`, `predict` returns exactly the
reformatted list: its length is `min top_k (length results)`, entry `j`
carries the 1-based rank `j + 1`, the pipeline's label in pipeline order,
and the confidence rendered as a two-decimal percentage string
(`0.8734` becomes `"87.34%"`). -/
theorem C6_topk_formatting (openFn : String → Except PyError Img)
    (st : ImageClassifierModel.State) (pipe : ImageClassifierModel.Pipeline)
    (img : Img) (results : List RawPred) (input : ImageClassifierModel.Input)
    (hl : st.loaded = true) (hm : st.model = some pipe)
    (hin : input = .image img ∨ ∃ s, input = .path s ∧ openFn s = .ok img)
    (hres : pipe img = .ok results) :
    (ImageClassifierModel.predict openFn st input).2 =
      .ok (ImageClassifierModel.formatResults results st.top_k) ∧
    (ImageClassifierModel.formatResults results st.top_k).length =
      min st.top_k results.length ∧
    (∀ j r, j < st.top_k → results[j]? = some r →
      (ImageClassifierModel.formatResults results st.top_k)[j]? =
        some { rank := j + 1, label := r.label, confidence := formatPct r.score }) ∧
    formatPct (8734 / 10000) = "87.34%" :=
  ⟨ImageClassifierModel.classifier_predict_success openFn st pipe img results input hl hm hin hres,
   ImageClassifierModel.formatResults_length results st.top_k,
   fun j r hj hr => ImageClassifierModel.formatResults_getElem results st.top_k j r hj hr,
   formatPct_8734⟩

/-- C6 witness: a loaded classifier with `top_k = 3` on a 5-category raw
result returns exactly 3 ranked entries, with ranks 1..3 and two-decimal
percentage confidences. -/
theorem C6_witness :
    (ImageClassifierModel.predict testOpenFn testClassifierLoaded (.image testImg)).2 =
      .ok (ImageClassifierModel.formatResults testRawPreds 3) ∧
    (ImageClassifierModel.formatResults testRawPreds 3).length = 3 ∧
    (ImageClassifierModel.formatResults testRawPreds 3)[2]? =
      some { rank := 3, label := "red fox", confidence := "4.00%" } ∧
    formatPct (8734 / 10000) = "87.34%" := by
  obtain ⟨h1, h2, h3, h4⟩ :=
    C6_topk_formatting testOpenFn testClassifierLoaded (fun _ => .ok testRawPreds) testImg
      testRawPreds (.image testImg) rfl rfl (Or.inl rfl) rfl
  refine ⟨h1, by simpa using h2, ?_, h4⟩
  have h5 : testRawPreds[2]? = some ⟨"red fox", 4 / 100⟩ := rfl
  have h6 := h3 2 ⟨"red fox", 4 / 100⟩ (by decide) h5
  rw [show formatPct (4 / 100) = "4.00%" from formatPct_4pc] at h6
  exact h6

/-! ### Text-to-video predict: success path and result fields -/

namespace TextToVideoModel

theorem ttv_predict_success (resizeFn : Img → Nat → Nat → Img) (st : State) (pipe : Pipeline)
    (s : String) (base : Img)
    (hl : st.loaded = true) (hs : ¬ (pyStrip s = ""))
    (hm : st.model = some pipe)
    (hp : pipe s st.num_inference_steps 512 512 7.5 = .ok base)
    (hn : st.num_frames ≠ 1) (hf : st.fps ≠ 0) :
    (predict resizeFn (.ok ()) (.ok ()) st (.str s)).2 =
      .ok { status := "success", message := "Video generated successfully!",
            file := "generated_video.mp4", preview := "generated_video_preview.png",
            frames := st.num_frames, fps := st.fps,
            duration := formatFixed1 ((st.num_frames : ℚ) / (st.fps : ℚ)) ++ " seconds",
            format := "MP4 video file", resolution := "512x512" } := by
  have hanim := createAnimationFrames_of_ne_one resizeFn base (N := st.num_frames) hn
  have hlen : ((List.range st.num_frames).map (makeFrame resizeFn base st.num_frames)).length
      = st.num_frames := by simp
  have hbody : tryBody resizeFn (.ok ()) (.ok ()) st s =
      .ok { status := "success", message := "Video generated successfully!",
            file := "generated_video.mp4", preview := "generated_video_preview.png",
            frames := st.num_frames, fps := st.fps,
            duration := formatFixed1 ((st.num_frames : ℚ) / (st.fps : ℚ)) ++ " seconds",
            format := "MP4 video file", resolution := "512x512" } := by
    unfold tryBody pipelineRun
    rw [hm]
    simp [hp, hanim, hf, hlen]
  simp [predict, hl, hs, hbody]

theorem tryBody_ok_fields (resizeFn : Img → Nat → Nat → Img)
    (mim sav : Except PyError Unit) (st : State) (s : String) (v : VideoResult)
    (h : tryBody resizeFn mim sav st s = .ok v) :
    v.frames = st.num_frames ∧ v.fps = st.fps ∧
    v.duration = formatFixed1 ((st.num_frames : ℚ) / (st.fps : ℚ)) ++ " seconds" := by
  unfold tryBody at h
  rcases hp : pipelineRun st s with e | base
  · rw [hp] at h; simp at h
  · rw [hp] at h
    dsimp only at h
    rcases ha : createAnimationFrames resizeFn base st.num_frames with _ | fs
    · rw [ha] at h; simp at h
    · rw [ha] at h
      dsimp only at h
      rcases mim with em | um
      · simp at h
      · rcases sav with es | us
        · simp at h
        · by_cases hf : st.fps = 0
          · rw [if_pos hf] at h; simp at h
          · rw [if_neg hf] at h
            have hlen := createAnimationFrames_length ha
            injection h with h
            subst h
            refine ⟨hlen, rfl, ?_⟩
            show formatFixed1 ((fs.length : ℚ) / (st.fps : ℚ)) ++ " seconds" = _
            rw [hlen]

end TextToVideoModel

/-- C7 (amended): every successful Video Result has `frames` equal to the
configured frame total and `fps` equal to the configured rate, and its
`duration` field is derived — it is the exact quotient `frames / fps`
rendered to one decimal place (so it equals the quotient exactly whenever
the quotient is a multiple of 0.1, as with the defaults 24 / 8 = 3.0, but
not in general). -/
theorem C7_video_result (resizeFn : Img → Nat → Nat → Img)
    (mim sav : Except PyError Unit) (st : TextToVideoModel.State)
    (input : TextToVideoModel.Input) (r : TextToVideoModel.VideoResult)
    (h : (TextToVideoModel.predict resizeFn mim sav st input).2 = .ok r) :
    r.frames = st.num_frames ∧ r.fps = st.fps ∧
    r.duration = formatFixed1 ((st.num_frames : ℚ) / (st.fps : ℚ)) ++ " seconds" := by
  unfold TextToVideoModel.predict at h
  by_cases hl : st.loaded = false
  · rw [if_pos hl] at h; simp at h
  · rw [if_neg hl] at h
    cases input with
    | nonStr => simp at h
    | str s =>
      dsimp only at h
      by_cases hs : pyStrip s = ""
      · rw [if_pos hs] at h; simp at h
      · rw [if_neg hs] at h
        rcases hb : TextToVideoModel.tryBody resizeFn mim sav st s with e | v
        · rw [hb] at h; simp at h
        · rw [hb] at h
          simp only [Except.ok.injEq] at h
          subst h
          exact TextToVideoModel.tryBody_ok_fields resizeFn mim sav st s v hb

/-- C7 witness: a successful default-configuration run (24 frames, 8 fps)
produces the record with `duration = "3.0 seconds"`, which is exactly
24 / 8 rendered to one decimal. -/
theorem C7_witness :
    (TextToVideoModel.predict idResize (.ok ()) (.ok ()) testTtvLoaded (.str "a cat")).2 =
      .ok videoResult24 ∧
    (videoResult24.frames = testTtvLoaded.num_frames ∧
     videoResult24.fps = testTtvLoaded.fps ∧
     videoResult24.duration =
       formatFixed1 ((testTtvLoaded.num_frames : ℚ) / (testTtvLoaded.fps : ℚ)) ++ " seconds") := by
  have hq : ((testTtvLoaded.num_frames : ℚ)) / (testTtvLoaded.fps : ℚ) = (24 : ℚ) / 8 := by
    norm_num [testTtvLoaded, TextToVideoModel.init]
  have h : (TextToVideoModel.predict idResize (.ok ()) (.ok ()) testTtvLoaded (.str "a cat")).2 =
      .ok videoResult24 := by
    rw [TextToVideoModel.ttv_predict_success idResize testTtvLoaded testTtvPipeline "a cat" testImg
      rfl (by decide) rfl rfl (by decide) (by decide)]
    rw [hq, formatFixed1_24_8]
    rfl
  exact ⟨h, C7_video_result idResize (.ok ()) (.ok ()) testTtvLoaded (.str "a cat") videoResult24 h⟩

/-- C7 (counterexample): with the frame total reconfigured to 25 (fps 8),
a successful run reports `duration = "3.1 seconds"` — the one-decimal
rendering 31/10 — while the exact quotient `frames / fps` is 25/8 = 3.125,
so the duration field does not equal frame count divided by fps exactly. -/
theorem C7_counterexample :
    (TextToVideoModel.predict idResize (.ok ()) (.ok ()) testTtvLoaded25 (.str "a cat")).2 =
      .ok videoResult25 ∧
    videoResult25.frames = 25 ∧ videoResult25.fps = 8 ∧
    videoResult25.duration = "3.1 seconds" ∧ ¬ ((31 : ℚ) / 10 = 25 / 8) := by
  refine ⟨?_, rfl, rfl, rfl, by norm_num⟩
  have hq : ((testTtvLoaded25.num_frames : ℚ)) / (testTtvLoaded25.fps : ℚ) = (25 : ℚ) / 8 := by
    norm_num [testTtvLoaded25, testTtvLoaded, TextToVideoModel.init]
  rw [TextToVideoModel.ttv_predict_success idResize testTtvLoaded25 testTtvPipeline "a cat" testImg
    rfl (by decide) rfl rfl (by decide) (by decide)]
  rw [hq, formatFixed1_25_8]
  rfl

/-! ### Brightness profile of the Frame Synthesizer -/

namespace TextToVideoModel

theorem progress_nonneg (N i : Nat) (h : 2 ≤ N) : 0 ≤ progress N i := by
  unfold progress
  apply div_nonneg (Nat.cast_nonneg i)
  have h1 : (0 : ℤ) ≤ (N : ℤ) - 1 := by omega
  exact_mod_cast h1

theorem progress_le_one {N i : Nat} (h2 : 2 ≤ N) (hi : i < N) : progress N i ≤ 1 := by
  unfold progress
  rw [div_le_one]
  · have h1 : (i : ℤ) ≤ (N : ℤ) - 1 := by omega
    exact_mod_cast h1
  · have h1 : (0 : ℤ) < (N : ℤ) - 1 := by omega
    exact_mod_cast h1

theorem sin_mul_pi_anti {p q : ℝ} (hq0 : 0 ≤ q) (hq1 : q ≤ 1)
    (h : |p - 1 / 2| ≤ |q - 1 / 2|) :
    Real.sin (q * Real.pi) ≤ Real.sin (p * Real.pi) := by
  have key : ∀ x : ℝ, Real.sin (x * Real.pi) = Real.cos (|x - 1 / 2| * Real.pi) := by
    intro x
    have h1 : |x - 1 / 2| * Real.pi = |(x - 1 / 2) * Real.pi| := by
      rw [abs_mul, abs_of_nonneg Real.pi_pos.le]
    rw [h1, Real.cos_abs]
    have h2 : (x - 1 / 2) * Real.pi = -(Real.pi / 2 - x * Real.pi) := by ring
    rw [h2, Real.cos_neg, Real.cos_pi_div_two_sub]
  rw [key p, key q]
  apply Real.cos_le_cos_of_nonneg_of_le_pi
  · positivity
  · have hb : |q - 1 / 2| ≤ 1 / 2 := abs_le.mpr ⟨by linarith, by linarith⟩
    nlinarith [Real.pi_pos]
  · exact mul_le_mul_of_nonneg_right h Real.pi_pos.le

theorem brightnessFactor_one : brightnessFactor 1 = 1 := by
  unfold brightnessFactor
  have h1 : ((1 : ℚ) : ℝ) * Real.pi = Real.pi := by push_cast; ring
  rw [h1, Real.sin_pi]
  norm_num

theorem brightnessFactor_half : brightnessFactor (1 / 2) = 1.05 := by
  unfold brightnessFactor
  have h1 : (((1 : ℚ) / 2 : ℚ) : ℝ) * Real.pi = Real.pi / 2 := by push_cast; ring
  rw [h1, Real.sin_pi_div_two]
  norm_num

end TextToVideoModel

/-- C8 (amended): for every `N ≥ 2`, a frame whose progress is at least as
close to 1/2 as another frame's has at least that frame's brightness
multiplier — so the midpoint frame has the maximum multiplier among all
frames; the multiplier never exceeds 1.05, and it attains the value 1.05
at the middle frame exactly when `N` is odd (for even `N` no frame has
progress 1/2, so the peak value 1.05 is not reached). -/
theorem C8_brightness_midpoint :
    (∀ N i j : Nat, 2 ≤ N → i < N → j < N →
       |TextToVideoModel.progress N i - 1 / 2| ≤ |TextToVideoModel.progress N j - 1 / 2| →
       TextToVideoModel.brightnessFactor (TextToVideoModel.progress N j) ≤
         TextToVideoModel.brightnessFactor (TextToVideoModel.progress N i)) ∧
    (∀ p : ℚ, TextToVideoModel.brightnessFactor p ≤ 1.05) ∧
    (∀ N : Nat, 2 ≤ N → N % 2 = 1 →
       TextToVideoModel.brightnessFactor (TextToVideoModel.progress N ((N - 1) / 2)) = 1.05) := by
  refine ⟨?_, ?_, ?_⟩
  · intro N i j hN hi hj habs
    unfold TextToVideoModel.brightnessFactor
    have hj0 : (0 : ℝ) ≤ ((TextToVideoModel.progress N j : ℚ) : ℝ) := by
      exact_mod_cast TextToVideoModel.progress_nonneg N j hN
    have hj1 : ((TextToVideoModel.progress N j : ℚ) : ℝ) ≤ 1 := by
      exact_mod_cast TextToVideoModel.progress_le_one hN hj
    have habs' : |((TextToVideoModel.progress N i : ℚ) : ℝ) - 1 / 2| ≤
        |((TextToVideoModel.progress N j : ℚ) : ℝ) - 1 / 2| := by
      have h0 : ((|TextToVideoModel.progress N i - 1 / 2| : ℚ) : ℝ) ≤
          ((|TextToVideoModel.progress N j - 1 / 2| : ℚ) : ℝ) := by exact_mod_cast habs
      push_cast at h0
      exact h0
    have hsin := TextToVideoModel.sin_mul_pi_anti hj0 hj1 habs'
    linarith [hsin]
  · intro p
    unfold TextToVideoModel.brightnessFactor
    nlinarith [Real.sin_le_one (((p : ℚ) : ℝ) * Real.pi)]
  · intro N hN hodd
    have hprog : TextToVideoModel.progress N ((N - 1) / 2) = 1 / 2 := by
      unfold TextToVideoModel.progress
      have hden : ((((N : ℤ) - 1 : ℤ)) : ℚ) = 2 * (((N - 1) / 2 : ℕ) : ℚ) := by
        obtain ⟨k, hk⟩ : ∃ k, (N - 1) / 2 = k := ⟨_, rfl⟩
        rw [hk]
        have h3 : ((N : ℤ) - 1) = 2 * (k : ℤ) := by omega
        rw [h3]
        push_cast
        ring
      rw [hden]
      have hk : (0 : ℚ) < (((N - 1) / 2 : ℕ) : ℚ) := by
        have h1 : 0 < (N - 1) / 2 := by omega
        exact_mod_cast h1
      rw [div_eq_iff (ne_of_gt (by linarith))]
      ring
    rw [hprog]
    exact TextToVideoModel.brightnessFactor_half

/-- C8 (counterexample): in the `N = 4` frame sequence no frame has
brightness multiplier 1.05 — the two middle frames only reach
`1 + (sqrt 3 / 2) * 0.05 < 1.05` — refuting the claim that the maximum
value 1.05 is attained at the midpoint frame for every `N ≥ 2`. -/
theorem C8_counterexample :
    ¬ (TextToVideoModel.brightnessFactor (TextToVideoModel.progress 4 0) = 1.05 ∨
       TextToVideoModel.brightnessFactor (TextToVideoModel.progress 4 1) = 1.05 ∨
       TextToVideoModel.brightnessFactor (TextToVideoModel.progress 4 2) = 1.05 ∨
       TextToVideoModel.brightnessFactor (TextToVideoModel.progress 4 3) = 1.05) := by
  have p0 : TextToVideoModel.progress 4 0 = 0 := TextToVideoModel.progress_zero 4
  have p1 : TextToVideoModel.progress 4 1 = 1 / 3 := by norm_num [TextToVideoModel.progress]
  have p2 : TextToVideoModel.progress 4 2 = 2 / 3 := by norm_num [TextToVideoModel.progress]
  have p3 : TextToVideoModel.progress 4 3 = 1 := by norm_num [TextToVideoModel.progress]
  have hs3 : Real.sqrt 3 < 2 := by
    nlinarith [Real.sq_sqrt (by norm_num : (0 : ℝ) ≤ 3), Real.sqrt_nonneg 3]
  have b1 : TextToVideoModel.brightnessFactor (1 / 3) = 1 + Real.sqrt 3 / 2 * 0.05 := by
    unfold TextToVideoModel.brightnessFactor
    have h13 : (((1 : ℚ) / 3 : ℚ) : ℝ) * Real.pi = Real.pi / 3 := by push_cast; ring
    rw [h13, Real.sin_pi_div_three]
  have b2 : TextToVideoModel.brightnessFactor (2 / 3) = 1 + Real.sqrt 3 / 2 * 0.05 := by
    unfold TextToVideoModel.brightnessFactor
    have h23 : (((2 : ℚ) / 3 : ℚ) : ℝ) * Real.pi = Real.pi - Real.pi / 3 := by push_cast; ring
    rw [h23, Real.sin_pi_sub, Real.sin_pi_div_three]
  rintro (h | h | h | h)
  · rw [p0, TextToVideoModel.brightnessFactor_zero] at h; norm_num at h
  · rw [p1, b1] at h; nlinarith [hs3]
  · rw [p2, b2] at h; nlinarith [hs3]
  · rw [p3, TextToVideoModel.brightnessFactor_one] at h; norm_num at h

/-- C8 witness: with `N = 3` the middle frame (progress 1/2) dominates the
last frame and attains exactly 1.05, and with `N = 5` frame 0 stays below
the 1.05 cap. -/
theorem C8_witness :
    TextToVideoModel.brightnessFactor (TextToVideoModel.progress 3 2) ≤
      TextToVideoModel.brightnessFactor (TextToVideoModel.progress 3 1) ∧
    TextToVideoModel.brightnessFactor (TextToVideoModel.progress 5 0) ≤ 1.05 ∧
    TextToVideoModel.brightnessFactor (TextToVideoModel.progress 3 ((3 - 1) / 2)) = 1.05 := by
  obtain ⟨h1, h2, h3⟩ := C8_brightness_midpoint
  refine ⟨?_, h2 _, h3 3 (by norm_num) (by norm_num)⟩
  apply h1 3 1 2 (by norm_num) (by norm_num) (by norm_num)
  have q1 : TextToVideoModel.progress 3 1 = 1 / 2 := by norm_num [TextToVideoModel.progress]
  have q2 : TextToVideoModel.progress 3 2 = 1 := by norm_num [TextToVideoModel.progress]
  rw [q1, q2]
  rw [sub_self, abs_zero]
  positivity

/-- C9: for both loaded adapters, input validation rejects the request at
the call boundary for every pipeline and every external outcome (so the
underlying pipeline is never consulted): the classifier raises the
invalid-input `ValueError` (re-raised by its `try` block with the
"Prediction failed: " context) for an input that is neither a path string
nor an image, and the text-to-video adapter raises `ValueError` for a
non-string or blank prompt. -/
theorem C9_input_validation (openFn : String → Except PyError Img)
    (stC : ImageClassifierModel.State)
    (resizeFn : Img → Nat → Nat → Img) (mim sav : Except PyError Unit)
    (stT : TextToVideoModel.State) (tin : TextToVideoModel.Input)
    (hC : stC.loaded = true) (hT : stT.loaded = true)
    (hin : TextToVideoModel.invalidInput tin) :
    (ImageClassifierModel.predict openFn stC .invalid).2 =
      .error (.exception "Prediction failed: Input must be a file path (string) or PIL Image") ∧
    (TextToVideoModel.predict resizeFn mim sav stT tin).2 =
      .error (.valueError "Input must be a non-empty text prompt") := by
  constructor
  · have hbody : ImageClassifierModel.tryBody openFn stC .invalid =
        .error (.valueError "Input must be a file path (string) or PIL Image") := rfl
    simp [ImageClassifierModel.predict, hC, hbody, PyError.str]
  · cases tin with
    | nonStr => simp [TextToVideoModel.predict, hT]
    | str s =>
      have hs : pyStrip s = "" := hin
      simp [TextToVideoModel.predict, hT, hs]

/-- C9 witness: the loaded classifier rejects a non-path non-image input
and the loaded text-to-video adapter rejects a non-string input. -/
theorem C9_witness :
    (ImageClassifierModel.predict testOpenFn testClassifierLoaded .invalid).2 =
      .error (.exception "Prediction failed: Input must be a file path (string) or PIL Image") ∧
    (TextToVideoModel.predict idResize (.ok ()) (.ok ()) testTtvLoaded .nonStr).2 =
      .error (.valueError "Input must be a non-empty text prompt") :=
  C9_input_validation testOpenFn testClassifierLoaded idResize (.ok ()) (.ok ())
    testTtvLoaded .nonStr rfl rfl trivial
